import Mathlib

/-!
Shallow embedding of `schemafy_lib/src/generator.rs` (crate `schemafy`):
the `Generator` configuration, its builder, `generate` / `generate_from_file` /
`generate_from_unknown` / `generate_to_file`, and `get_crate_root`.

External effects (the filesystem, environment variables, the JSON parser,
the `Expander`, and the `rustfmt` child process) are modelled as an explicit
environment record `Env`; Rust panics and propagated `io::Error`s both become
`Except.error` outcomes of the whole run, since a panic aborts the run before
any later effect happens.
-/

namespace Schemafy

/-- A Unix-style path: an `absolute` flag plus the list of non-empty
components, mirroring `std::path::Path` as far as the generator uses it
(`is_relative`, `join`, `ancestors`, display). -/
structure Path where
  absolute : Bool
  components : List String
deriving DecidableEq, Repr

/-- `PathBuf::from(s)` / `Path::new(s)` for a Unix path string: absolute
iff the first character is the separator; the components are the non-empty
separator-delimited pieces. -/
def Path.fromString (s : String) : Path :=
  ⟨s.data.head? == some '/',
   ((s.data.splitOn '/').filter (fun cs => cs ≠ [])).map (fun cs => String.mk cs)⟩

/-- `Path::is_relative`: true when the path is not absolute. -/
def Path.isRelative (p : Path) : Bool := !p.absolute

/-- `Path::join`: an absolute argument replaces the receiver, otherwise the
components are appended. -/
def Path.join (p q : Path) : Path :=
  if q.absolute then q else ⟨p.absolute, p.components ++ q.components⟩

/-- `Path::to_string_lossy` for this path model. -/
def Path.toStringLossy (p : Path) : String :=
  (if p.absolute then "/" else "") ++ String.intercalate "/" p.components

/-- `Path::ancestors`: the path itself, then each parent in turn, nearest
first, ending with the root (or the empty relative path). -/
def Path.ancestors (p : Path) : List Path :=
  (List.range (p.components.length + 1)).map
    (fun k => ⟨p.absolute, p.components.take (p.components.length - k)⟩)

/-- `proc_macro2::TokenStream`, abstracted to the source text its
`to_string` renders. -/
structure TokenStream where
  toString : String
deriving DecidableEq, Repr

/-- A parsed JSON document (the `Schema` value produced by `serde_json`);
the generator never inspects it, it only hands it to the expander. -/
inductive Json where
  | null
  | bool (b : Bool)
  | num (n : Int)
  | str (s : String)
  | arr (elems : List Json)
  | obj (fields : List (String × Json))

/-- An abnormal outcome of a run: the panics raised inside
`generate_from_file` / `generate_from_unknown` (tagged with the data the
panic message is built from) and a propagated `io::Error`. -/
inductive RunError where
  | unreadable (path : Path) (err : String)
  | malformed (path : Path) (err : String)
  | panicked (msg : String)
  | ioError (msg : String)
deriving DecidableEq, Repr

/-- The message each abnormal outcome prints, exactly as the `panic!`
format strings in `generate_from_file` build it. -/
def renderError : RunError → String
  | .unreadable p err => "Unable to read `" ++ p.toStringLossy ++ "`: " ++ err
  | .malformed p err => "Cannot parse `" ++ p.toStringLossy ++ "` as JSON: " ++ err
  | .panicked msg => msg
  | .ioError msg => msg

/-- `enum Input` from generator.rs: a schema file path or raw schema text. -/
inductive Input where
  | File (path : Path)
  | Unknown (text : String)
deriving DecidableEq, Repr

/-- `struct Generator`: the configuration selected by the builder. -/
structure Generator where
  root_name : Option String
  schemafy_path : String
  input_file : Input
deriving DecidableEq, Repr

/-- `struct GeneratorBuilder`: wraps the configuration being built. -/
structure GeneratorBuilder where
  inner : Generator
deriving DecidableEq, Repr

/-- The readable filesystem: `std::fs::read_to_string` per path, either the
file contents or the io error message. -/
def Fs := Path → Except String String

/-- `std::fs::write` (modelled as succeeding): the file at `p` now holds
`text`, every other path is untouched. -/
def Fs.write (fs : Fs) (p : Path) (text : String) : Fs :=
  fun q => if q = p then .ok text else fs q

/-- Outcome of `Command::new("rustfmt").arg(file).output()`: either the
child process could not be launched (the `Err` case of `output()`), or it
ran to completion with some exit code, rewriting the file contents in
place. `output()` returns `Ok` regardless of the exit code. -/
inductive FmtOutcome where
  | spawnFail (msg : String)
  | ran (exitCode : Int) (reformat : String → String)

/-- The external world the generator runs against. `expand` stands for
`Expander::new(root_name, schemafy_path, schema).expand(schema)`.

Modelled from the spec: the `Expander` component (reference resolution,
type synthesis, naming and emission) is not part of the sources under
review; per the spec it is a deterministic transformation that either
produces the complete token stream or aborts the run with a fatal
synthesis error, which is how the field types it. -/
structure Env where
  cargoManifestDir : Option String
  currentDir : Except String Path
  readDir : Path → Except String (List String)
  fs : Fs
  parseJson : String → Except String Json
  expand : Option String → String → Json → Except String TokenStream
  fmt : FmtOutcome

/-- `Except.isOk` for the error carrier used here. -/
def exceptIsOk {α : Type} : Except String α → Bool
  | .ok _ => true
  | .error _ => false

instance {ε α : Type} [DecidableEq ε] [DecidableEq α] : DecidableEq (Except ε α)
  | .ok a, .ok b =>
    if h : a = b then .isTrue (by rw [h]) else .isFalse (by intro hc; cases hc; exact h rfl)
  | .error a, .error b =>
    if h : a = b then .isTrue (by rw [h]) else .isFalse (by intro hc; cases hc; exact h rfl)
  | .ok _, .error _ => .isFalse (by intro hc; cases hc)
  | .error _, .ok _ => .isFalse (by intro hc; cases hc)

/-- The `for p in current_dir.ancestors()` loop of `get_crate_root`: a
`read_dir` failure propagates, a directory containing an entry named
`Cargo.toml` is returned, and a completed loop falls through to the
current directory. -/
def crate_root_search (readDir : Path → Except String (List String))
    (current_dir : Path) : List Path → Except String Path
  | [] => .ok current_dir
  | p :: rest =>
    match readDir p with
    | .error e => .error e
    | .ok entries =>
      if entries.any (fun entry => entry == "Cargo.toml") then .ok p
      else crate_root_search readDir current_dir rest

/-- `fn get_crate_root`: `CARGO_MANIFEST_DIR` wins outright; otherwise the
ancestors of the current directory are scanned nearest-first. -/
def get_crate_root (env : Env) : Except String Path :=
  match env.cargoManifestDir with
  | some path => .ok (Path.fromString path)
  | none =>
    match env.currentDir with
    | .error e => .error e
    | .ok current_dir => crate_root_search env.readDir current_dir current_dir.ancestors

/-- The path `generate_from_file` actually reads: a relative input is
joined onto `get_crate_root().unwrap()` (whose failure is a panic,
surfaced as the `.error` case here), an absolute input is used as is. -/
def read_path (env : Env) (input : Path) : Except String Path :=
  if input.isRelative then (get_crate_root env).map (fun r => r.join input)
  else .ok input

/-- `Generator::generate_from_file`: resolve the input path, read it,
parse it as JSON, then expand. Each failure is a panic carrying the
corresponding message data. -/
def Generator.generate_from_file (g : Generator) (env : Env) (input : Path) :
    Except RunError TokenStream :=
  match read_path env input with
  | .error e => .error (.panicked ("called `Result::unwrap()` on an `Err` value: " ++ e))
  | .ok input_file =>
    match env.fs input_file with
    | .error err => .error (.unreadable input_file err)
    | .ok json =>
      match env.parseJson json with
      | .error err => .error (.malformed input_file err)
      | .ok schema =>
        match env.expand g.root_name g.schemafy_path schema with
        | .error msg => .error (.panicked msg)
        | .ok tokens => .ok tokens

/-- `Generator::generate_from_unknown` is `unimplemented!()`: it panics
with the message "not implemented" on every input. -/
def Generator.generate_from_unknown (_g : Generator) (_env : Env) (_input : String) :
    Except RunError TokenStream :=
  .error (.panicked "not implemented")

/-- `Generator::generate`: dispatch on the input variant. -/
def Generator.generate (g : Generator) (env : Env) : Except RunError TokenStream :=
  match g.input_file with
  | .File file => g.generate_from_file env file
  | .Unknown input => g.generate_from_unknown env input

/-- `Generator::generate_to_file`: generate (any panic there aborts before
any write, leaving the filesystem untouched), render to a string, write the
file, then run rustfmt on it; a rustfmt launch failure propagates through
`?` after the write, while a rustfmt that ran keeps the run successful
whatever its exit code. Returns the run outcome and the final filesystem. -/
def Generator.generate_to_file (g : Generator) (env : Env) (output_file : Path) :
    Except RunError Unit × Fs :=
  match g.generate env with
  | .error e => (.error e, env.fs)
  | .ok tokens =>
    let out := tokens.toString
    let fs1 := env.fs.write output_file out
    match env.fmt with
    | .spawnFail msg => (.error (.ioError msg), fs1)
    | .ran _ reformat => (.ok (), fs1.write output_file (reformat out))

/-- `impl Default for GeneratorBuilder`. -/
def GeneratorBuilder.default : GeneratorBuilder :=
  ⟨{ root_name := none
     schemafy_path := "::schemafy_core::"
     input_file := Input.File (Path.fromString "schema.json") }⟩

/-- `Generator::builder`. -/
def Generator.builder : GeneratorBuilder := GeneratorBuilder.default

/-- `GeneratorBuilder::with_root_name`. -/
def GeneratorBuilder.with_root_name (b : GeneratorBuilder) (root_name : Option String) :
    GeneratorBuilder :=
  ⟨{ b.inner with root_name := root_name }⟩

/-- `GeneratorBuilder::with_root_name_str`: stores `Some(root_name.to_string())`. -/
def GeneratorBuilder.with_root_name_str (b : GeneratorBuilder) (root_name : String) :
    GeneratorBuilder :=
  ⟨{ b.inner with root_name := some root_name }⟩

/-- `GeneratorBuilder::with_input_file`. -/
def GeneratorBuilder.with_input_file (b : GeneratorBuilder) (input_file : Path) :
    GeneratorBuilder :=
  ⟨{ b.inner with input_file := Input.File input_file }⟩

/-- `GeneratorBuilder::with_input`: selects the raw-text input variant. -/
def GeneratorBuilder.with_input (b : GeneratorBuilder) (input : String) :
    GeneratorBuilder :=
  ⟨{ b.inner with input_file := Input.Unknown input }⟩

/-- `GeneratorBuilder::with_schemafy_path`. -/
def GeneratorBuilder.with_schemafy_path (b : GeneratorBuilder) (schemafy_path : String) :
    GeneratorBuilder :=
  ⟨{ b.inner with schemafy_path := schemafy_path }⟩

/-- `GeneratorBuilder::build`: hands back the inner configuration unchanged. -/
def GeneratorBuilder.build (b : GeneratorBuilder) : Generator := b.inner

/-- The project root the claim about `get_crate_root` predicts in the
no-environment-variable case: the nearest ancestor of the current
directory (itself included) whose directory listing contains `Cargo.toml`,
defaulting to the current directory. -/
def claimed_crate_root (env : Env) (cwd : Path) : Path :=
  ((cwd.ancestors).find? (fun p =>
      match env.readDir p with
      | .ok entries => entries.any (fun entry => entry == "Cargo.toml")
      | .error _ => false)).getD cwd

/-! Concrete environments and configurations used to instantiate the
theorems below on closed inputs. -/

/-- A base world: a manifest directory is set, no file is readable, nothing
parses, expansion yields a fixed token stream, rustfmt runs and leaves the
text unchanged. -/
def baseEnv : Env where
  cargoManifestDir := some "/proj"
  currentDir := .ok ⟨true, ["proj"]⟩
  readDir := fun _ => .ok []
  fs := fun _ => .error "No such file or directory (os error 2)"
  parseJson := fun _ => .error "expected value at line 1 column 1"
  expand := fun _ _ _ => .ok ⟨"TOKENS"⟩
  fmt := .ran 0 (fun s => s)

/-- A generator pointed at an absolute path that no world below can read. -/
def gMissing : Generator where
  root_name := none
  schemafy_path := "::schemafy_core::"
  input_file := .File ⟨true, ["missing.json"]⟩

/-- A generator pointed at an absolute file whose contents fail to parse. -/
def gBadJson : Generator where
  root_name := none
  schemafy_path := "::schemafy_core::"
  input_file := .File ⟨true, ["bad.json"]⟩

/-- A world where every file reads as the text "x" (which does not parse). -/
def envBadJson : Env := { baseEnv with fs := fun _ => .ok "x" }

/-- A generator whose input is the raw-text variant. -/
def gUnknown : Generator where
  root_name := none
  schemafy_path := "::schemafy_core::"
  input_file := .Unknown "null"

/-- A world that would happily parse and expand any input it were given. -/
def envUnknown : Env :=
  { baseEnv with parseJson := fun _ => .ok Json.null }

/-- A generator with the relative input path rel.json. -/
def gRel : Generator where
  root_name := none
  schemafy_path := "::schemafy_core::"
  input_file := .File (Path.fromString "rel.json")

/-- A world where /proj/rel.json exists and the whole pipeline succeeds. -/
def envRel : Env :=
  { baseEnv with
      fs := fun p =>
        if p = ⟨true, ["proj", "rel.json"]⟩ then .ok "null"
        else .error "No such file or directory (os error 2)"
      parseJson := fun _ => .ok Json.null }

/-- Like the filesystem of envRel at /proj/rel.json, different elsewhere. -/
def fsAlt : Fs := fun p =>
  if p = ⟨true, ["proj", "rel.json"]⟩ then .ok "null"
  else .error "Permission denied (os error 13)"

/-- envRel, except that launching rustfmt fails. -/
def envFmtFail : Env :=
  { envRel with fmt := .spawnFail "No such file or directory (os error 2)" }

/-- The output path used by the generate_to_file instances below. -/
def outPath : Path := ⟨true, ["proj", "out.rs"]⟩

/-- The current directory for the get_crate_root scenarios. -/
def cwd10 : Path := ⟨true, ["a", "b"]⟩

/-- No manifest variable; the current directory itself is unreadable while
its parent /a contains Cargo.toml. -/
def env10 : Env :=
  { baseEnv with
      cargoManifestDir := none
      currentDir := .ok cwd10
      readDir := fun p =>
        if p = ⟨true, ["a"]⟩ then .ok ["Cargo.toml"]
        else if p = cwd10 then .error "Permission denied (os error 13)"
        else .ok [] }

/-- Like env10 but with every directory readable. -/
def env10ok : Env :=
  { env10 with
      readDir := fun p =>
        if p = ⟨true, ["a"]⟩ then .ok ["Cargo.toml"] else .ok [] }

/-! Theorems settling the claims. -/

/-- C7: the default configuration produced by Generator::builder has no
root name, the bundled support-library path ::schemafy_core::, and the
relative input file schema.json; build() returns exactly that
configuration when no setter is called. -/
theorem builder_default_config :
    Generator.builder.build =
      { root_name := none
        schemafy_path := "::schemafy_core::"
        input_file := Input.File (Path.fromString "schema.json") }
    ∧ Path.fromString "schema.json" = ⟨false, ["schema.json"]⟩ := by
  exact ⟨rfl, by decide⟩

/-- C8: each builder setter rewrites only its own field of the inner
configuration, leaving every other field as it was, and build applies no
further modification. -/
theorem builder_setters_frame (b : GeneratorBuilder) (r : Option String)
    (s i sp : String) (p : Path) :
    (b.with_root_name r).inner = { b.inner with root_name := r }
    ∧ (b.with_root_name_str s).inner = { b.inner with root_name := some s }
    ∧ (b.with_input_file p).inner = { b.inner with input_file := Input.File p }
    ∧ (b.with_input i).inner = { b.inner with input_file := Input.Unknown i }
    ∧ (b.with_schemafy_path sp).inner = { b.inner with schemafy_path := sp }
    ∧ b.build = b.inner :=
  ⟨rfl, rfl, rfl, rfl, rfl, rfl⟩

/-- C9: on every builder state and every string, with_root_name_str s
builds the same configuration as with_root_name (some s). -/
theorem with_root_name_str_eq_with_root_name (b : GeneratorBuilder) (s : String) :
    b.with_root_name_str s = b.with_root_name (some s) :=
  rfl

/-- C2: generation is deterministic: two runs from an identical
configuration against an identical world produce byte-identical output. -/
theorem generate_deterministic (g₁ g₂ : Generator) (env₁ env₂ : Env)
    (hg : g₁ = g₂) (henv : env₁ = env₂) :
    g₁.generate env₁ = g₂.generate env₂ := by
  subst hg; subst henv; rfl

/-- Witness for C2 at a concrete configuration and world. -/
theorem generate_deterministic_witness :
    gRel.generate envRel = gRel.generate envRel :=
  generate_deterministic gRel gRel envRel envRel rfl rfl

/-- C3: generate on the raw-text input variant panics with the
unimplemented message even in a world whose parser and expander would
accept the text, instead of returning the token stream for it. -/
theorem generate_unknown_panics :
    gUnknown.generate envUnknown = .error (.panicked "not implemented")
    ∧ envUnknown.parseJson "null" = .ok Json.null
    ∧ envUnknown.expand none "::schemafy_core::" Json.null = .ok ⟨"TOKENS"⟩ :=
  ⟨rfl, rfl, rfl⟩

/-- C1: on any fatal generation error (unreadable input, invalid JSON, or
a synthesis error) generate_to_file performs no write at all: the run
aborts with that error and the filesystem is exactly as before, so no
output file and no half-written file exists at the output path. -/
theorem generate_to_file_no_write_on_error (g : Generator) (env : Env)
    (out : Path) (e : RunError) (h : g.generate env = .error e) :
    g.generate_to_file env out = (.error e, env.fs) := by
  simp only [Generator.generate_to_file, h]

/-- Witness for C1: a world whose input file is unreadable, where the run
aborts and the filesystem is untouched. -/
theorem generate_to_file_no_write_on_error_witness :
    gMissing.generate_to_file baseEnv outPath =
      (.error (.unreadable ⟨true, ["missing.json"]⟩
        "No such file or directory (os error 2)"), baseEnv.fs) :=
  generate_to_file_no_write_on_error gMissing baseEnv outPath
    (.unreadable ⟨true, ["missing.json"]⟩ "No such file or directory (os error 2)") rfl

/-- C4: the path generate_from_file reads is the crate root joined with
the input when the input is relative and the input itself when it is
absolute; and the run depends on the filesystem only at that resolved
path, so that is the only file actually read. -/
theorem generate_from_file_resolved (g : Generator) (env : Env) (input : Path) :
    (read_path env input =
       if input.isRelative then (get_crate_root env).map (fun r => r.join input)
       else .ok input)
    ∧ ∀ (fs' : Fs) (p : Path), read_path env input = .ok p → fs' p = env.fs p →
        g.generate_from_file { env with fs := fs' } input
          = g.generate_from_file env input := by
  refine ⟨rfl, ?_⟩
  intro fs' p hres hagree
  cases env with
  | mk cmd cd rd fs pj ex fm =>
    have hres' : read_path ⟨cmd, cd, rd, fs', pj, ex, fm⟩ input = .ok p := hres
    simp only [Generator.generate_from_file, hres, hres']
    rw [hagree]

/-- Witness for C4: with the crate root /proj and the relative input
rel.json, two worlds agreeing only on /proj/rel.json generate identically. -/
theorem generate_from_file_resolved_witness :
    gRel.generate_from_file { envRel with fs := fsAlt } (Path.fromString "rel.json")
      = gRel.generate_from_file envRel (Path.fromString "rel.json") :=
  (generate_from_file_resolved gRel envRel (Path.fromString "rel.json")).2
    fsAlt ⟨true, ["proj", "rel.json"]⟩ (by decide) (by decide)

/-- Counterexample for C5: generation succeeds and the output file is
fully written, yet because launching rustfmt failed, generate_to_file
returns an error — the run is treated as failed on account of the
formatter, contrary to the claim. -/
theorem generate_to_file_fmt_spawn_fail_cex :
    gRel.generate envFmtFail = .ok ⟨"TOKENS"⟩
    ∧ (gRel.generate_to_file envFmtFail outPath).1 =
        .error (.ioError "No such file or directory (os error 2)")
    ∧ (gRel.generate_to_file envFmtFail outPath).2 outPath = .ok "TOKENS" := by
  refine ⟨by decide, by decide, by decide⟩

/-- C5 as amended: once generation has succeeded the rendered text is
written to the output file and stays there whatever the formatter does;
a formatter that ran keeps the run successful whatever its exit code,
but a failure to launch the formatter is propagated as an error of the
run (with the file still fully written). -/
theorem generate_to_file_fmt_best_effort (g : Generator) (env : Env)
    (out : Path) (ts : TokenStream) (h : g.generate env = .ok ts) :
    (∀ msg, env.fmt = .spawnFail msg →
        g.generate_to_file env out =
          (.error (.ioError msg), env.fs.write out ts.toString))
    ∧ ∀ (code : Int) (reformat : String → String), env.fmt = .ran code reformat →
        g.generate_to_file env out =
          (.ok (), (env.fs.write out ts.toString).write out (reformat ts.toString)) := by
  constructor
  · intro msg hf
    simp only [Generator.generate_to_file, h, hf]
  · intro code reformat hf
    simp only [Generator.generate_to_file, h, hf]

/-- Witness for C5 as amended: rustfmt runs (exit code 0, identity
rewrite) and the run succeeds with the file written. -/
theorem generate_to_file_fmt_best_effort_witness :
    gRel.generate_to_file envRel outPath =
      (.ok (), (envRel.fs.write outPath "TOKENS").write outPath "TOKENS") :=
  (generate_to_file_fmt_best_effort gRel envRel outPath ⟨"TOKENS"⟩ (by decide)).2
    0 (fun s => s) rfl

/-- C6: an unreadable input aborts the run with the unreadable error for
the resolved file and an unparsable input aborts it with the malformed
error for that file; the two cases are distinct, and each message names
the offending file. -/
theorem generate_from_file_error_cases (g : Generator) (env : Env)
    (input p : Path) (hres : read_path env input = .ok p) :
    (∀ err, env.fs p = .error err →
        g.generate_from_file env input = .error (.unreadable p err))
    ∧ (∀ json perr, env.fs p = .ok json → env.parseJson json = .error perr →
        g.generate_from_file env input = .error (.malformed p perr))
    ∧ (∀ (q q' : Path) (e e' : String),
        renderError (.unreadable q e)
            = "Unable to read `" ++ q.toStringLossy ++ "`: " ++ e
        ∧ renderError (.malformed q' e')
            = "Cannot parse `" ++ q'.toStringLossy ++ "` as JSON: " ++ e'
        ∧ renderError (.unreadable q e) ≠ renderError (.malformed q' e')
        ∧ RunError.unreadable q e ≠ RunError.malformed q' e') := by
  refine ⟨?_, ?_, ?_⟩
  · intro err hfs
    simp only [Generator.generate_from_file, hres, hfs]
  · intro json perr hfs hparse
    simp only [Generator.generate_from_file, hres, hfs, hparse]
  · intro q q' e e'
    refine ⟨rfl, rfl, ?_, by simp⟩
    intro hmsg
    have h1 : (renderError (RunError.unreadable q e)).data.head? = some 'U' := by
      simp only [renderError, String.data_append]
      rfl
    have h2 : (renderError (RunError.malformed q' e')).data.head? = some 'C' := by
      simp only [renderError, String.data_append]
      rfl
    rw [hmsg, h2] at h1
    exact absurd h1 (by decide)

/-- Witness for C6: the unreadable case and the malformed case at
concrete worlds, with their distinct errors. -/
theorem generate_from_file_error_cases_witness :
    gMissing.generate_from_file baseEnv ⟨true, ["missing.json"]⟩
        = .error (.unreadable ⟨true, ["missing.json"]⟩
            "No such file or directory (os error 2)")
    ∧ gBadJson.generate_from_file envBadJson ⟨true, ["bad.json"]⟩
        = .error (.malformed ⟨true, ["bad.json"]⟩
            "expected value at line 1 column 1") :=
  ⟨(generate_from_file_error_cases gMissing baseEnv ⟨true, ["missing.json"]⟩
      ⟨true, ["missing.json"]⟩ rfl).1 "No such file or directory (os error 2)" rfl,
   (generate_from_file_error_cases gBadJson envBadJson ⟨true, ["bad.json"]⟩
      ⟨true, ["bad.json"]⟩ rfl).2.1 "x" "expected value at line 1 column 1" rfl rfl⟩

/-- Helper for C10: when every directory on the list is readable, the
search loop of get_crate_root returns the first listed directory whose
entries contain Cargo.toml, and the fallback directory when none does. -/
theorem crate_root_search_eq_find (rd : Path → Except String (List String))
    (cwd : Path) (l : List Path)
    (h : ∀ p ∈ l, exceptIsOk (rd p) = true) :
    crate_root_search rd cwd l =
      .ok ((l.find? (fun p =>
        match rd p with
        | .ok entries => entries.any (fun entry => entry == "Cargo.toml")
        | .error _ => false)).getD cwd) := by
  induction l with
  | nil => rfl
  | cons p rest ih =>
    have hp := h p (List.mem_cons_self p rest)
    cases hrd : rd p with
    | error e => rw [hrd] at hp; simp [exceptIsOk] at hp
    | ok entries =>
      by_cases hany : entries.any (fun entry => entry == "Cargo.toml") = true
      · rw [List.find?_cons_of_pos _ (by rw [hrd]; exact hany)]
        simp only [crate_root_search, hrd, hany, if_true, Option.getD_some]
      · rw [List.find?_cons_of_neg _ (by rw [hrd]; simpa using hany)]
        rw [← ih (fun q hq => h q (List.mem_cons_of_mem p hq))]
        simp only [crate_root_search, hrd]
        rw [if_neg hany]

/-- C10 as amended: a set CARGO_MANIFEST_DIR is returned outright, for any
filesystem whatsoever; with it unset, provided the current directory is
available and every ancestor directory is readable, the nearest-first
ancestor containing an entry Cargo.toml is returned, defaulting to the
current directory — while a failure to read a directory during the search
(or to obtain the current directory) is propagated as an error instead. -/
theorem get_crate_root_precedence (env : Env) :
    (∀ v, env.cargoManifestDir = some v →
        get_crate_root env = .ok (Path.fromString v))
    ∧ ∀ cwd, env.cargoManifestDir = none → env.currentDir = .ok cwd →
        (∀ p ∈ cwd.ancestors, exceptIsOk (env.readDir p) = true) →
        get_crate_root env = .ok (claimed_crate_root env cwd) := by
  constructor
  · intro v hv
    simp only [get_crate_root, hv]
  · intro cwd hnone hcwd hall
    simp only [get_crate_root, hnone, hcwd, claimed_crate_root]
    exact crate_root_search_eq_find env.readDir cwd cwd.ancestors hall

/-- Witness for C10 as amended: both branches at concrete worlds. -/
theorem get_crate_root_precedence_witness :
    get_crate_root baseEnv = .ok (Path.fromString "/proj")
    ∧ get_crate_root env10ok = .ok (claimed_crate_root env10ok cwd10) :=
  ⟨(get_crate_root_precedence baseEnv).1 "/proj" rfl,
   (get_crate_root_precedence env10ok).2 cwd10 rfl rfl (by decide)⟩

/-- Counterexample for C10 as stated: no manifest variable is set, the
current directory is available, the parent /a is the nearest ancestor
containing Cargo.toml — yet because listing the current directory itself
fails, get_crate_root propagates that error instead of returning /a. -/
theorem get_crate_root_readdir_cex :
    env10.cargoManifestDir = none
    ∧ env10.currentDir = .ok cwd10
    ∧ env10.readDir ⟨true, ["a"]⟩ = .ok ["Cargo.toml"]
    ∧ claimed_crate_root env10 cwd10 = ⟨true, ["a"]⟩
    ∧ get_crate_root env10 = .error "Permission denied (os error 13)" := by
  refine ⟨rfl, rfl, by decide, by decide, by decide⟩

end Schemafy
